import Mathlib

/-!
Verification development for the TelegramToTRMNL Pipedream action
(`src/src/src.js`): a pipeline that validates the requester, locates a
Telegram-hosted PDF, parses a page directive from the caption, renders the
requested page to an image inside a headless browser, re-uploads the image to
Telegram, and posts the resulting URL to a TRMNL webhook.

The JavaScript is shallowly embedded: numbers used by the scaling math are
modelled as rationals, JS strings as Lean `String`/`List Char`, fallible
remote calls as `Except`/`Option`-valued environment fields so every branch
of the source can be driven, and the remote calls issued by a run are
collected in a trace list.
-/

namespace TelegramToTRMNL

/-! ## Constants from the source -/

def TELEGRAM_API_BASE : String := "https://api.telegram.org"

def TRMNL_API_BASE : String := "https://usetrmnl.com/api"

/-- The fallback URL returned by `uploadImageToTelegram`'s catch block. -/
def fallbackErrorImageUrl : String := "https://http.cat/images/500.jpg"

def permissionDeniedMsg : String := "You don't have permission to use this bot."

def noDocumentMsg : String := "No PDF document found in the message. Please send a PDF file."

def noFilePathMsg : String := "Can't find the file path from Telegram."

def noUploadedFilePathMsg : String := "Can't get file path from Telegram for uploaded image"

def noPhotoInResponseMsg : String := "Failed to send photo to Telegram - no photo in response"

/-! ## Scale calculator (inside `convertPdfPageToImage`'s page script)

The in-page script computes, from the page's natural viewport at scale 1:
```
const baseScale = 2.5;
const maxWidth = 760;
const maxHeight = 440;
const scaleToFitWidth = maxWidth / (viewport.width * baseScale);
const scaleToFitHeight = maxHeight / (viewport.height * baseScale);
const finalScale = Math.min(scaleToFitWidth, scaleToFitHeight, 1.2) * baseScale;
```
-/

def scaleToFitWidth (nativeWidth : ℚ) : ℚ := 760 / (nativeWidth * (5/2))

def scaleToFitHeight (nativeHeight : ℚ) : ℚ := 440 / (nativeHeight * (5/2))

/-- The quantity `finalScale` exactly as the in-page script computes it. -/
def finalScale (nativeWidth nativeHeight : ℚ) : ℚ :=
  min (min (scaleToFitWidth nativeWidth) (scaleToFitHeight nativeHeight)) (6/5) * (5/2)

/-- The spec's RenderTarget record: the destination display's raster box and
rendering quality knobs. -/
structure RenderTarget where
  maxWidth : ℚ
  maxHeight : ℚ
  deviceScaleFactor : ℚ
  baseScale : ℚ
  scaleCapFactor : ℚ
  deriving Repr, DecidableEq

/-- The deployed RenderTarget constants of the source. -/
def trmnlTarget : RenderTarget :=
  { maxWidth := 760, maxHeight := 440, deviceScaleFactor := 2
    baseScale := 5/2, scaleCapFactor := 6/5 }

/-- The Scale Calculator as the spec words it:
`finalScale = min(maxWidth/(nativeWidth*baseScale),
maxHeight/(nativeHeight*baseScale), scaleCapFactor) * baseScale`. -/
def finalScaleSpec (rt : RenderTarget) (nativeWidth nativeHeight : ℚ) : ℚ :=
  min (min (rt.maxWidth / (nativeWidth * rt.baseScale))
        (rt.maxHeight / (nativeHeight * rt.baseScale)))
      rt.scaleCapFactor * rt.baseScale

/-! ## Page directive parser (`parseCaption`)

`parseCaption` matches `caption.match(/\/page\s+(\d+)/i)` and, when the regex
matches, sets the page number to `parseInt` of the captured digit run;
otherwise the page number stays at its initial value 1. -/

/-- JavaScript's `\d` character class. -/
def isDigitChar (c : Char) : Bool := 48 ≤ c.toNat && c.toNat ≤ 57

/-- JavaScript's `\s` character class (whitespace and line terminators). -/
def isJsSpace (c : Char) : Bool :=
  c.toNat = 9 || c.toNat = 10 || c.toNat = 11 || c.toNat = 12 || c.toNat = 13 ||
  c.toNat = 32 || c.toNat = 0xa0 || c.toNat = 0x1680 ||
  (0x2000 ≤ c.toNat && c.toNat ≤ 0x200a) ||
  c.toNat = 0x2028 || c.toNat = 0x2029 || c.toNat = 0x202f ||
  c.toNat = 0x205f || c.toNat = 0x3000 || c.toNat = 0xfeff

/-- Strip a literal pattern prefix case-insensitively (the regex `i` flag):
each subject character must case-fold to the pattern character. -/
def stripLitCI : List Char → List Char → Option (List Char)
  | [], rest => some rest
  | _ :: _, [] => none
  | l :: ls, c :: cs => if c.toLower = l then stripLitCI ls cs else none

/-- Try to match `\/page\s+(\d+)` anchored at the head of the character list,
returning the captured digit run. `\s` and `\d` are disjoint, so the greedy
quantifiers need no backtracking. -/
def matchPageAt (cs : List Char) : Option (List Char) :=
  match stripLitCI ['/', 'p', 'a', 'g', 'e'] cs with
  | none => none
  | some r1 =>
    let ws := r1.takeWhile isJsSpace
    if ws.isEmpty then none
    else
      let r2 := r1.drop ws.length
      let ds := r2.takeWhile isDigitChar
      if ds.isEmpty then none else some ds

/-- Leftmost-match semantics of `String.prototype.match` without the `g`
flag: the first position at which the pattern matches wins. -/
def findPageDirective : List Char → Option (List Char)
  | [] => none
  | c :: cs =>
    match matchPageAt (c :: cs) with
    | some ds => some ds
    | none => findPageDirective cs

/-- JavaScript's `parseInt` on a non-empty decimal digit run. -/
def digitsToNat (ds : List Char) : Nat :=
  ds.foldl (fun a c => a * 10 + (c.toNat - 48)) 0

/-- Method `parseCaption`: `this.message.caption || ""`, regex match, `parseInt` of
the capture on a match, else the initial `pageNumber = 1`. -/
def parseCaption (caption : Option String) : Nat :=
  match findPageDirective (caption.getD "").data with
  | some ds => digitsToNat ds
  | none => 1

/-! ## Inbound message data model -/

structure Document where
  file_id : String
  mime_type : String
  deriving Repr, DecidableEq

structure Message where
  from_id : Int
  chat_id : Int
  document : Option Document
  caption : Option String
  deriving Repr, DecidableEq

/-- The component's props: bot token, plugin UUID, optional user filter and
the triggering message. -/
structure Props where
  token : String
  plugin_url : String
  filter_user_id : Option Int
  message : Message
  deriving Repr, DecidableEq

/-! ## Permission check and file lookup -/

/-- Method `validateUserPermission`: `if (this.filter_user_id && this.message.from.id
!== this.filter_user_id) throw`. An absent prop is `undefined` (falsy); a
present integer is truthy exactly when non-zero. -/
def validateUserPermission (filter_user_id : Option Int) (fromId : Int) :
    Except String Unit :=
  match filter_user_id with
  | none => .ok ()
  | some v => if v ≠ 0 ∧ fromId ≠ v then .error permissionDeniedMsg else .ok ()

/-- Method `getFileInfo`: return the message's document when its MIME type is
`application/pdf`, otherwise throw. -/
def getFileInfo (m : Message) : Except String Document :=
  match m.document with
  | some d => if d.mime_type = "application/pdf" then .ok d else .error noDocumentMsg
  | none => .error noDocumentMsg

/-- Method `generateFileUrl`: the `getFile` remote call is modelled by its outcome —
`.error e` when axios throws, `.ok r` with `r = fileInfo.result?.file_path`
otherwise. A missing `file_path` throws; otherwise the download URL is
assembled and trimmed. -/
def generateFileUrl (token : String) (getFileResp : Except String (Option String)) :
    Except String String :=
  match getFileResp with
  | .error e => .error e
  | .ok none => .error noFilePathMsg
  | .ok (some filePath) =>
      .ok (TELEGRAM_API_BASE ++ "/file/bot" ++ token ++ "/" ++ filePath).trim

/-! ## Page renderer (`convertPdfPageToImage`)

The in-page PDF.js script has three terminal contents: an error notice (its
own `catch` sets the notice text and still signals `pdfRendered`), a
page-not-found placeholder when the requested page exceeds `pdf.numPages`,
and the rendered canvas at the computed scale. The Puppeteer side can fail
at the bounded 30-second `waitForFunction` or at `screenshot`; the
`try/finally` closes the browser on every path. -/

/-- What the captured screenshot shows. -/
inductive Frame where
  | errorNotice (text : String)
  | placeholder (text : String)
  | rendered (width height : ℚ)
  deriving Repr, DecidableEq

/-- The placeholder `innerHTML` written when the page is out of range:
`'<div class="loading">Page ${pageNumber} not found. PDF has ' +
pdf.numPages + ' pages.</div>'`. -/
def placeholderHtml (pageNumber numPages : Nat) : String :=
  "<div class=\"loading\">Page " ++ Nat.repr pageNumber ++
    " not found. PDF has " ++ Nat.repr numPages ++ " pages.</div>"

/-- Environment of one render: the document behind the resolved URL and the
failure knobs of the browser session. -/
structure RenderEnv where
  numPages : Nat
  nativeWidth : ℚ
  nativeHeight : ℚ
  /-- True when `pdfjsLib.getDocument` rejects inside the page script (caught there). -/
  pdfLoadFails : Bool
  /-- True when the bounded wait for `window.pdfRendered` (timeout 30000 ms) expires. -/
  waitTimesOut : Bool
  /-- True when `page.screenshot` rejects. -/
  screenshotFails : Bool
  deriving Repr, DecidableEq

/-- Events of the browser session, in order. -/
inductive REvent where
  | newPage
  | setViewport
  | setContent
  | waitForRendered
  | screenshot
  | close
  deriving Repr, DecidableEq

/-- Content the in-page script leaves in the container once `pdfRendered`
is signalled. -/
def renderedFrame (env : RenderEnv) (pageNumber : Nat) : Frame :=
  if env.pdfLoadFails then
    .errorNotice "Error loading PDF"
  else if pageNumber > env.numPages then
    .placeholder (placeholderHtml pageNumber env.numPages)
  else
    .rendered (env.nativeWidth * finalScale env.nativeWidth env.nativeHeight)
      (env.nativeHeight * finalScale env.nativeWidth env.nativeHeight)

/-- The `try` body of `convertPdfPageToImage`: its outcome and the browser
events it performed before returning or throwing. -/
def renderBody (env : RenderEnv) (pageNumber : Nat) :
    Except String Frame × List REvent :=
  if env.waitTimesOut then
    (.error "waitForFunction: timeout 30000ms exceeded",
      [.newPage, .setViewport, .setContent, .waitForRendered])
  else if env.screenshotFails then
    (.error "screenshot failed",
      [.newPage, .setViewport, .setContent, .waitForRendered, .screenshot])
  else
    (.ok (renderedFrame env pageNumber),
      [.newPage, .setViewport, .setContent, .waitForRendered, .screenshot])

/-- Method `convertPdfPageToImage`: run the `try` body, then the `finally` clause
closes the browser whatever the body did. The `pdfUrl` is interpolated into
the page script; the document it denotes is carried by `env`. -/
def convertPdfPageToImage (env : RenderEnv) (_pdfUrl : String) (pageNumber : Nat) :
    Except String Frame × List REvent :=
  let body := renderBody env pageNumber
  (body.1, body.2 ++ [.close])

/-! ## Relay uploader (`uploadImageToTelegram`) -/

/-- Environment of one upload: the `sendPhoto` call's outcome (`.ok` carries
`response.result.photo` — `none` when the result or photo field is missing,
otherwise the array of photo-size `file_id`s) and the follow-up `getFile`
call's outcome. -/
structure UploadEnv where
  sendPhotoResp : Except String (Option (List String))
  getFileResp : Except String (Option String)
  deriving Repr

/-- The `try` body of `uploadImageToTelegram`. `photos[photos.length - 1]`
on an empty array yields `undefined`, so reading `.file_id` from it throws. -/
def uploadAttempt (token : String) (env : UploadEnv) : Except String String :=
  match env.sendPhotoResp with
  | .error e => .error e
  | .ok none => .error noPhotoInResponseMsg
  | .ok (some photos) =>
    match photos.getLast? with
    | none => .error "TypeError: cannot read file_id of undefined"
    | some _fileId =>
      match env.getFileResp with
      | .error e => .error e
      | .ok none => .error noUploadedFilePathMsg
      | .ok (some filePath) =>
          .ok (TELEGRAM_API_BASE ++ "/file/bot" ++ token ++ "/" ++ filePath)

/-- Method `uploadImageToTelegram`: the whole body is wrapped in `try/catch`; any
failure is replaced by the static fallback error-image URL. -/
def uploadImageToTelegram (token : String) (env : UploadEnv) : String :=
  match uploadAttempt token env with
  | .ok url => url
  | .error _ => fallbackErrorImageUrl

/-! ## Delivery dispatcher (`sendToTrmnl`) -/

structure MergeVariables where
  image_url : Option String
  file_url : Option String
  file_type : String
  file_action : Option String
  deriving Repr, DecidableEq

structure TrmnlPayload where
  merge_variables : MergeVariables
  deriving Repr, DecidableEq

/-- The payload `sendToTrmnl` posts to
`{TRMNL_API_BASE}/custom_plugins/{plugin_url}`. -/
def sendToTrmnlPayload (imageUrl : String) : TrmnlPayload :=
  { merge_variables :=
      { image_url := some imageUrl, file_url := none
        file_type := "image", file_action := none } }

/-! ## The top-level `run` -/

/-- Remote calls a run can issue, in order of issue. -/
inductive Call where
  | getFile
  | render
  | sendPhoto
  | getFileUpload
  | trmnlPost (payload : TrmnlPayload)
  deriving Repr, DecidableEq

/-- Remote calls actually issued by `uploadImageToTelegram`: `sendPhoto`
always happens; the second `getFile` only once a photo `file_id` exists. -/
def uploadCalls (env : UploadEnv) : List Call :=
  match env.sendPhotoResp with
  | .error _ => [.sendPhoto]
  | .ok none => [.sendPhoto]
  | .ok (some photos) =>
    match photos.getLast? with
    | none => [.sendPhoto]
    | some _ => [.sendPhoto, .getFileUpload]

/-- Environment of one run: outcomes of every remote interaction. -/
structure Env where
  getFileResp : Except String (Option String)
  render : RenderEnv
  upload : UploadEnv
  trmnlResp : Except String String
  deriving Repr

/-- The object `run` returns (`$summary` exports elided). -/
structure RunResult where
  success : Bool
  sent_payload : Option TrmnlPayload
  response_from_trmnl : Option String
  image_url : Option String
  error : Option String
  shouldNotify : Bool
  deriving Repr, DecidableEq

/-- The catch-branch return value of `run`: note `success: true`. -/
def errorResult (msg : String) : RunResult :=
  { success := true, sent_payload := none, response_from_trmnl := none
    image_url := none, error := some msg, shouldNotify := true }

/-- The happy-path return value of `run`. -/
def successResult (payload : TrmnlPayload) (resp : String) (imageUrl : String) :
    RunResult :=
  { success := true, sent_payload := some payload, response_from_trmnl := some resp
    image_url := some imageUrl, error := none, shouldNotify := false }

/-- Method `run`: permission check, file info, file URL, caption parse, render,
upload, dispatch — any throw lands in the catch branch. Paired with the
trace of remote calls issued before returning. -/
def run (props : Props) (env : Env) : RunResult × List Call :=
  match validateUserPermission props.filter_user_id props.message.from_id with
  | .error e => (errorResult e, [])
  | .ok _ =>
    match getFileInfo props.message with
    | .error e => (errorResult e, [])
    | .ok _file =>
      match generateFileUrl props.token env.getFileResp with
      | .error e => (errorResult e, [.getFile])
      | .ok pdfUrl =>
        match (convertPdfPageToImage env.render pdfUrl
            (parseCaption props.message.caption)).1 with
        | .error e => (errorResult e, [.getFile, .render])
        | .ok _frame =>
          match env.trmnlResp with
          | .error e =>
            (errorResult e,
              [Call.getFile, Call.render] ++ uploadCalls env.upload ++
                [Call.trmnlPost (sendToTrmnlPayload
                  (uploadImageToTelegram props.token env.upload))])
          | .ok resp =>
            (successResult
                (sendToTrmnlPayload (uploadImageToTelegram props.token env.upload))
                resp (uploadImageToTelegram props.token env.upload),
              [Call.getFile, Call.render] ++ uploadCalls env.upload ++
                [Call.trmnlPost (sendToTrmnlPayload
                  (uploadImageToTelegram props.token env.upload))])

/-! ## Delivery artifact variants

The dispatcher has two payload shapes. The rendered-image shape is
`sendToTrmnlPayload` above (from `sendToTrmnl` in `src/src/src.js`). -/

inductive DeliveryArtifact where
  | renderedImage (imageUrl : String)
  | directDocument (fileUrl : String) (pageNumber : Nat)
  deriving Repr, DecidableEq

/-- Modelled from the spec: the legacy direct-document delivery mode lives in
the repository's Python bot (`src/trmnl_utils.py` per the README), which is
not among the provided sources. Spec §4.6/§6: when only a direct document URL
is forwarded, the body is
`{"merge_variables": {"file_url": <url>, "file_type": "pdf",
"file_action": "<page_number>"}}`, `file_action` carrying the requested page
number as a string. -/
def dispatchPayload : DeliveryArtifact → TrmnlPayload
  | .renderedImage imageUrl => sendToTrmnlPayload imageUrl
  | .directDocument fileUrl pageNumber =>
      { merge_variables :=
          { image_url := none, file_url := some fileUrl
            file_type := "pdf", file_action := some (Nat.repr pageNumber) } }

/-! ## Sample concrete values (used to instantiate theorems) -/

def sampleDoc : Document := { file_id := "doc-1", mime_type := "application/pdf" }

def sampleMessage : Message :=
  { from_id := 111, chat_id := 5, document := some sampleDoc, caption := some "/page 3" }

def sampleProps : Props :=
  { token := "tok", plugin_url := "uuid-1", filter_user_id := none
    message := sampleMessage }

def sampleRender : RenderEnv :=
  { numPages := 5, nativeWidth := 2, nativeHeight := 3
    pdfLoadFails := false, waitTimesOut := false, screenshotFails := false }

def sampleUpload : UploadEnv :=
  { sendPhotoResp := .ok (some ["ph-small", "ph-large"])
    getFileResp := .ok (some "photos/file_9.jpg") }

def sampleEnv : Env :=
  { getFileResp := .ok (some "documents/file_1.pdf")
    render := sampleRender, upload := sampleUpload, trmnlResp := .ok "ok" }

/-! ## Helper lemmas -/

lemma finalScale_eq_spec (w h : ℚ) : finalScale w h = finalScaleSpec trmnlTarget w h := rfl

lemma finalScaleSpec_width_le (rt : RenderTarget) (w h : ℚ)
    (hw : 0 < w) (hb : 0 < rt.baseScale) :
    w * finalScaleSpec rt w h ≤ rt.maxWidth := by
  have hwb : (0 : ℚ) < w * rt.baseScale := mul_pos hw hb
  have hs : min (min (rt.maxWidth / (w * rt.baseScale))
      (rt.maxHeight / (h * rt.baseScale))) rt.scaleCapFactor ≤
      rt.maxWidth / (w * rt.baseScale) :=
    le_trans (min_le_left _ _) (min_le_left _ _)
  have := mul_le_mul_of_nonneg_right hs hwb.le
  calc w * finalScaleSpec rt w h
      = min (min (rt.maxWidth / (w * rt.baseScale))
          (rt.maxHeight / (h * rt.baseScale))) rt.scaleCapFactor *
            (w * rt.baseScale) := by unfold finalScaleSpec; ring
    _ ≤ rt.maxWidth / (w * rt.baseScale) * (w * rt.baseScale) := this
    _ = rt.maxWidth := div_mul_cancel₀ _ hwb.ne'

lemma finalScaleSpec_height_le (rt : RenderTarget) (w h : ℚ)
    (hh : 0 < h) (hb : 0 < rt.baseScale) :
    h * finalScaleSpec rt w h ≤ rt.maxHeight := by
  have hhb : (0 : ℚ) < h * rt.baseScale := mul_pos hh hb
  have hs : min (min (rt.maxWidth / (w * rt.baseScale))
      (rt.maxHeight / (h * rt.baseScale))) rt.scaleCapFactor ≤
      rt.maxHeight / (h * rt.baseScale) :=
    le_trans (min_le_left _ _) (min_le_right _ _)
  have := mul_le_mul_of_nonneg_right hs hhb.le
  calc h * finalScaleSpec rt w h
      = min (min (rt.maxWidth / (w * rt.baseScale))
          (rt.maxHeight / (h * rt.baseScale))) rt.scaleCapFactor *
            (h * rt.baseScale) := by unfold finalScaleSpec; ring
    _ ≤ rt.maxHeight / (h * rt.baseScale) * (h * rt.baseScale) := this
    _ = rt.maxHeight := div_mul_cancel₀ _ hhb.ne'

lemma finalScaleSpec_le_cap (rt : RenderTarget) (w h : ℚ) (hb : 0 < rt.baseScale) :
    finalScaleSpec rt w h ≤ rt.scaleCapFactor * rt.baseScale := by
  unfold finalScaleSpec
  exact mul_le_mul_of_nonneg_right (min_le_right _ _) hb.le

lemma digit_not_jsSpace (c : Char) (h : isDigitChar c = true) : isJsSpace c = false := by
  unfold isDigitChar at h
  simp only [Bool.and_eq_true, decide_eq_true_eq] at h
  rw [Bool.eq_false_iff]
  intro hs
  unfold isJsSpace at hs
  simp only [Bool.or_eq_true, Bool.and_eq_true, decide_eq_true_eq] at hs
  omega

lemma takeWhile_space_nil (ds : List Char) (h : ∀ c ∈ ds, isDigitChar c = true) :
    ds.takeWhile isJsSpace = [] := by
  cases ds with
  | nil => rfl
  | cons c cs =>
    rw [List.takeWhile_cons_of_neg]
    simp [digit_not_jsSpace c (h c (List.mem_cons_self c cs))]

lemma takeWhile_digits_self (ds : List Char) (h : ∀ c ∈ ds, isDigitChar c = true) :
    ds.takeWhile isDigitChar = ds := by
  induction ds with
  | nil => rfl
  | cons c cs ih =>
    rw [List.takeWhile_cons_of_pos (by simp [h c (List.mem_cons_self c cs)])]
    rw [ih (fun x hx => h x (List.mem_cons_of_mem c hx))]

lemma matchPageAt_page_digits (ds : List Char) (hne : ds ≠ [])
    (h : ∀ c ∈ ds, isDigitChar c = true) :
    matchPageAt ('/' :: 'p' :: 'a' :: 'g' :: 'e' :: ' ' :: ds) = some ds := by
  have hstrip : stripLitCI ['/', 'p', 'a', 'g', 'e']
      ('/' :: 'p' :: 'a' :: 'g' :: 'e' :: ' ' :: ds) = some (' ' :: ds) := rfl
  unfold matchPageAt
  rw [hstrip]
  have hsp : (' ' :: ds).takeWhile isJsSpace = [' '] := by
    rw [List.takeWhile_cons_of_pos (by decide), takeWhile_space_nil ds h]
  simp only [hsp, List.isEmpty_cons, List.length_cons, List.length_nil]
  simp only [List.drop_succ_cons, List.drop_zero, takeWhile_digits_self ds h]
  simp [hne]

/-! ## Claim theorems -/

/-- C1: the Scale Calculator computes the rendering scale exactly as
`finalScale = min(maxWidth/(nativeWidth*baseScale),
maxHeight/(nativeHeight*baseScale), scaleCapFactor) * baseScale`, for every
native page width and height obtained at scale 1, with the deployed constants
`maxWidth = 760`, `maxHeight = 440`, `baseScale = 2.5`,
`scaleCapFactor = 1.2`. -/
theorem scale_calculator_formula (nativeWidth nativeHeight : ℚ) :
    finalScale nativeWidth nativeHeight =
      finalScaleSpec
        { maxWidth := 760, maxHeight := 440, deviceScaleFactor := 2
          baseScale := 5/2, scaleCapFactor := 6/5 }
        nativeWidth nativeHeight := rfl

/-- C2: for every native width > 0 and height > 0 and every RenderTarget with
positive fields, the scaled raster dimensions never exceed
`maxWidth × maxHeight` on either axis and `finalScale ≤ scaleCapFactor *
baseScale`; in particular this holds for the deployed constants used by
`convertPdfPageToImage` (bounds 760, 440 and 1.2 * 2.5). -/
theorem scale_never_exceeds_box (rt : RenderTarget) (w h : ℚ)
    (hw : 0 < w) (hh : 0 < h) (hmw : 0 < rt.maxWidth) (hmh : 0 < rt.maxHeight)
    (hb : 0 < rt.baseScale) (hc : 0 < rt.scaleCapFactor) :
    (w * finalScaleSpec rt w h ≤ rt.maxWidth ∧
     h * finalScaleSpec rt w h ≤ rt.maxHeight ∧
     finalScaleSpec rt w h ≤ rt.scaleCapFactor * rt.baseScale) ∧
    (w * finalScale w h ≤ 760 ∧ h * finalScale w h ≤ 440 ∧
     finalScale w h ≤ (6/5) * (5/2)) := by
  have hbase : (0 : ℚ) < trmnlTarget.baseScale := by norm_num [trmnlTarget]
  refine ⟨⟨finalScaleSpec_width_le rt w h hw hb,
    finalScaleSpec_height_le rt w h hh hb,
    finalScaleSpec_le_cap rt w h hb⟩, ?_, ?_, ?_⟩
  · have := finalScaleSpec_width_le trmnlTarget w h hw hbase
    rwa [finalScale_eq_spec, show trmnlTarget.maxWidth = 760 from rfl] at *
  · have := finalScaleSpec_height_le trmnlTarget w h hh hbase
    rwa [finalScale_eq_spec, show trmnlTarget.maxHeight = 440 from rfl] at *
  · have := finalScaleSpec_le_cap trmnlTarget w h hbase
    rwa [finalScale_eq_spec] at *

/-- Witness for C2 at `rt = trmnlTarget`, `w = 2`, `h = 3`. -/
theorem scale_never_exceeds_box_witness :
    (((2:ℚ) * finalScaleSpec trmnlTarget 2 3 ≤ trmnlTarget.maxWidth ∧
      (3:ℚ) * finalScaleSpec trmnlTarget 2 3 ≤ trmnlTarget.maxHeight ∧
      finalScaleSpec trmnlTarget 2 3 ≤ trmnlTarget.scaleCapFactor * trmnlTarget.baseScale) ∧
     ((2:ℚ) * finalScale 2 3 ≤ 760 ∧ (3:ℚ) * finalScale 2 3 ≤ 440 ∧
      finalScale 2 3 ≤ (6/5) * (5/2))) :=
  scale_never_exceeds_box trmnlTarget 2 3 (by norm_num) (by norm_num)
    (by norm_num [trmnlTarget]) (by norm_num [trmnlTarget])
    (by norm_num [trmnlTarget]) (by norm_num [trmnlTarget])

/-- C8: on every exit path of `convertPdfPageToImage` — successful capture,
out-of-range placeholder, in-page render error, bounded-wait expiry or
screenshot failure — the browser is closed before the operation returns:
`close` is the final event of every session trace. -/
theorem browser_always_closed (env : RenderEnv) (pdfUrl : String) (pageNumber : Nat) :
    (convertPdfPageToImage env pdfUrl pageNumber).2.getLast? = some REvent.close ∧
    REvent.close ∈ (convertPdfPageToImage env pdfUrl pageNumber).2 := by
  unfold convertPdfPageToImage renderBody
  constructor
  · split <;> simp
  · split <;> simp

/-- C3 counterexample: the caption `"/page 0"` matches the directive with
`N = 0 < 1`, yet `parseCaption` returns 0, not the claimed default 1 — the
source never clamps the parsed value. -/
theorem parseCaption_page_zero :
    parseCaption (some "/page 0") = 0 ∧ parseCaption (some "/page 0") ≠ 1 := by
  decide

/-- C3 (amended): `parseCaption` never fails and returns the value of the
first case-insensitive `/page N` directive — including `N = 0`, which is
returned as-is rather than defaulted — and returns 1 exactly when the regex
does not match; in particular any caption of the shape `/page <digits>`
parses to the decimal value of the digits. -/
theorem parseCaption_amended (caption : Option String) :
    (findPageDirective (caption.getD "").data = none → parseCaption caption = 1) ∧
    (∀ ds, findPageDirective (caption.getD "").data = some ds →
      parseCaption caption = digitsToNat ds) ∧
    (∀ ds : List Char, ds ≠ [] → (∀ c ∈ ds, isDigitChar c = true) →
      parseCaption (some (String.mk ('/' :: 'p' :: 'a' :: 'g' :: 'e' :: ' ' :: ds))) =
        digitsToNat ds) := by
  refine ⟨?_, ?_, ?_⟩
  · intro h; unfold parseCaption; rw [h]
  · intro ds h; unfold parseCaption; rw [h]
  · intro ds hne h
    have hfind : findPageDirective ('/' :: 'p' :: 'a' :: 'g' :: 'e' :: ' ' :: ds) =
        some ds := by
      rw [findPageDirective, matchPageAt_page_digits ds hne h]
    unfold parseCaption
    rw [show ((some (String.mk ('/' :: 'p' :: 'a' :: 'g' :: 'e' :: ' ' :: ds))).getD
      "").data = '/' :: 'p' :: 'a' :: 'g' :: 'e' :: ' ' :: ds from rfl, hfind]

/-- Witness for C3 (amended): the directive `/page 42` parses to 42, and a
caption without a directive parses to 1. -/
theorem parseCaption_amended_witness :
    parseCaption (some (String.mk ['/', 'p', 'a', 'g', 'e', ' ', '4', '2'])) =
      digitsToNat ['4', '2'] ∧
    digitsToNat ['4', '2'] = 42 ∧
    parseCaption (some "hello") = 1 :=
  ⟨(parseCaption_amended
      (some (String.mk ['/', 'p', 'a', 'g', 'e', ' ', '4', '2']))).2.2
      ['4', '2'] (by decide) (by decide),
   by decide,
   (parseCaption_amended (some "hello")).1 (by decide)⟩

/-- C4: a requested page number strictly greater than the document's page
count yields a placeholder frame whose text includes the actual page count —
no error is raised — and the pipeline still reaches the dispatcher. -/
theorem out_of_range_placeholder (props : Props) (env : Env) (pdfUrl : String)
    (d : Document) (fp : String)
    (hperm : props.filter_user_id = none)
    (hdoc : props.message.document = some d)
    (hmime : d.mime_type = "application/pdf")
    (hfile : env.getFileResp = .ok (some fp))
    (hload : env.render.pdfLoadFails = false)
    (hwait : env.render.waitTimesOut = false)
    (hshot : env.render.screenshotFails = false)
    (hgt : parseCaption props.message.caption > env.render.numPages) :
    (∃ pre post,
      (convertPdfPageToImage env.render pdfUrl (parseCaption props.message.caption)).1 =
        .ok (.placeholder (pre ++ Nat.repr env.render.numPages ++ post))) ∧
    (∃ mv, Call.trmnlPost mv ∈ (run props env).2) := by
  have h1 : validateUserPermission props.filter_user_id props.message.from_id =
      .ok () := by rw [hperm]; rfl
  have h2 : getFileInfo props.message = .ok d := by
    simp [getFileInfo, hdoc, hmime]
  have h3 : generateFileUrl props.token env.getFileResp =
      .ok ((TELEGRAM_API_BASE ++ "/file/bot" ++ props.token ++ "/" ++ fp).trim) := by
    rw [hfile]; rfl
  have hconv : ∀ url : String,
      (convertPdfPageToImage env.render url (parseCaption props.message.caption)).1 =
        .ok (.placeholder (placeholderHtml (parseCaption props.message.caption)
          env.render.numPages)) := by
    intro url
    unfold convertPdfPageToImage renderBody renderedFrame
    rw [hwait, hshot, hload]
    simp [hgt]
  constructor
  · exact ⟨"<div class=\"loading\">Page " ++
      Nat.repr (parseCaption props.message.caption) ++ " not found. PDF has ",
      " pages.</div>", by rw [hconv pdfUrl]; simp [placeholderHtml, String.append_assoc]⟩
  · refine ⟨sendToTrmnlPayload (uploadImageToTelegram props.token env.upload), ?_⟩
    unfold run
    rw [h1, h2, h3]
    simp only [hconv]
    cases henv : env.trmnlResp <;> simp

/-- Witness for C4: caption `/page 9` against a 5-page document. -/
theorem out_of_range_placeholder_witness :
    ((∃ pre post,
      (convertPdfPageToImage sampleRender "u"
          (parseCaption (some "/page 9"))).1 =
        .ok (.placeholder (pre ++ Nat.repr sampleRender.numPages ++ post))) ∧
     (∃ mv, Call.trmnlPost mv ∈
        (run { sampleProps with message := { sampleMessage with caption := some "/page 9" } }
          sampleEnv).2)) :=
  out_of_range_placeholder
    { sampleProps with message := { sampleMessage with caption := some "/page 9" } }
    sampleEnv "u" sampleDoc "documents/file_1.pdf"
    rfl rfl rfl rfl rfl rfl rfl (by decide)

/-- C5: any failure inside `uploadImageToTelegram` — a rejected `sendPhoto`,
a response without a photo, or a missing `file_path` for the uploaded image —
is absorbed: the uploader returns the static fallback error-image URL, the
dispatcher is still invoked, and the URL it receives is non-empty. -/
theorem upload_failure_fallback (props : Props) (env : Env)
    (d : Document) (fp : String) (e : String)
    (hperm : props.filter_user_id = none)
    (hdoc : props.message.document = some d)
    (hmime : d.mime_type = "application/pdf")
    (hfile : env.getFileResp = .ok (some fp))
    (hwait : env.render.waitTimesOut = false)
    (hshot : env.render.screenshotFails = false)
    (hfail : uploadAttempt props.token env.upload = .error e) :
    uploadImageToTelegram props.token env.upload = fallbackErrorImageUrl ∧
    fallbackErrorImageUrl ≠ "" ∧
    Call.trmnlPost (sendToTrmnlPayload fallbackErrorImageUrl) ∈ (run props env).2 := by
  have hup : uploadImageToTelegram props.token env.upload = fallbackErrorImageUrl := by
    unfold uploadImageToTelegram; rw [hfail]
  have h1 : validateUserPermission props.filter_user_id props.message.from_id =
      .ok () := by rw [hperm]; rfl
  have h2 : getFileInfo props.message = .ok d := by
    simp [getFileInfo, hdoc, hmime]
  have h3 : generateFileUrl props.token env.getFileResp =
      .ok ((TELEGRAM_API_BASE ++ "/file/bot" ++ props.token ++ "/" ++ fp).trim) := by
    rw [hfile]; rfl
  have hconv : ∀ url : String,
      (convertPdfPageToImage env.render url (parseCaption props.message.caption)).1 =
        .ok (renderedFrame env.render (parseCaption props.message.caption)) := by
    intro url
    unfold convertPdfPageToImage renderBody
    rw [hwait, hshot]
    simp
  refine ⟨hup, by decide, ?_⟩
  unfold run
  rw [h1, h2, h3]
  simp only [hconv, hup]
  cases henv : env.trmnlResp <;> simp

/-- Witness for C5: the `sendPhoto` response carries no photo. -/
theorem upload_failure_fallback_witness :
    uploadImageToTelegram sampleProps.token { sendPhotoResp := .ok none, getFileResp := .ok none } =
      fallbackErrorImageUrl ∧
    fallbackErrorImageUrl ≠ "" ∧
    Call.trmnlPost (sendToTrmnlPayload fallbackErrorImageUrl) ∈
      (run sampleProps
        { sampleEnv with upload := { sendPhotoResp := .ok none, getFileResp := .ok none } }).2 :=
  upload_failure_fallback sampleProps
    { sampleEnv with upload := { sendPhotoResp := .ok none, getFileResp := .ok none } }
    sampleDoc "documents/file_1.pdf" noPhotoInResponseMsg
    rfl rfl rfl rfl rfl rfl rfl

/-- C6: besides the rendered-image payload produced by `sendToTrmnl`, the
dispatcher's legacy direct-document mode posts
`{merge_variables: {file_url, file_type: "pdf", file_action: "<page>"}}`;
forwarding a direct document URL yields exactly that shape, and the
rendered-image mode coincides with the source's `sendToTrmnlPayload`. -/
theorem legacy_direct_document_mode :
    (∃ a : DeliveryArtifact, (dispatchPayload a).merge_variables =
      { image_url := none
        file_url := some "https://api.telegram.org/file/bottok/documents/file_1.pdf"
        file_type := "pdf", file_action := some "3" }) ∧
    (∀ imageUrl, dispatchPayload (.renderedImage imageUrl) = sendToTrmnlPayload imageUrl) :=
  ⟨⟨.directDocument "https://api.telegram.org/file/bottok/documents/file_1.pdf" 3, rfl⟩,
   fun _ => rfl⟩

/-- C7: with a (truthy) filter user id configured and a differing requester,
`run` rejects with the permission error and issues no remote call at all;
with no filter configured the permission check never rejects. -/
theorem permission_filter (props : Props) (env : Env) :
    (∀ v : Int, props.filter_user_id = some v → v ≠ 0 → props.message.from_id ≠ v →
      (run props env).1.error = some permissionDeniedMsg ∧ (run props env).2 = []) ∧
    (props.filter_user_id = none →
      validateUserPermission props.filter_user_id props.message.from_id = .ok ()) := by
  constructor
  · intro v hv hv0 hne
    have hperm : validateUserPermission props.filter_user_id props.message.from_id =
        .error permissionDeniedMsg := by
      rw [hv]; simp [validateUserPermission, hv0, hne]
    unfold run
    rw [hperm]
    exact ⟨rfl, rfl⟩
  · intro h; rw [h]; rfl

/-- Witness for C7: filter `111`, requester `222` is rejected with an empty
call trace; unset filter passes the check. -/
theorem permission_filter_witness :
    ((run { sampleProps with
            filter_user_id := some 111,
            message := { sampleMessage with from_id := 222 } } sampleEnv).1.error =
      some permissionDeniedMsg ∧
     (run { sampleProps with
            filter_user_id := some 111,
            message := { sampleMessage with from_id := 222 } } sampleEnv).2 = []) ∧
    validateUserPermission sampleProps.filter_user_id sampleProps.message.from_id =
      .ok () :=
  ⟨(permission_filter
      { sampleProps with
        filter_user_id := some 111,
        message := { sampleMessage with from_id := 222 } } sampleEnv).1
      111 rfl (by decide) (by decide),
   (permission_filter sampleProps sampleEnv).2 rfl⟩

/-- C9: a `getFile` response without a `file_path` makes the Document Locator
throw, aborting the run before any rendering (the trace stops at the lookup);
with a `file_path` present the locator returns the assembled download URL. -/
theorem file_resolution (props : Props) (env : Env) (d : Document)
    (hperm : props.filter_user_id = none)
    (hdoc : props.message.document = some d)
    (hmime : d.mime_type = "application/pdf") :
    (env.getFileResp = .ok none →
      (run props env).1.error = some noFilePathMsg ∧ (run props env).2 = [.getFile]) ∧
    (∀ fp, env.getFileResp = .ok (some fp) →
      generateFileUrl props.token env.getFileResp =
        .ok ((TELEGRAM_API_BASE ++ "/file/bot" ++ props.token ++ "/" ++ fp).trim)) := by
  have h1 : validateUserPermission props.filter_user_id props.message.from_id =
      .ok () := by rw [hperm]; rfl
  have h2 : getFileInfo props.message = .ok d := by
    simp [getFileInfo, hdoc, hmime]
  constructor
  · intro hfile
    have h3 : generateFileUrl props.token env.getFileResp = .error noFilePathMsg := by
      rw [hfile]; rfl
    unfold run
    rw [h1, h2, h3]
    exact ⟨rfl, rfl⟩
  · intro fp hfile
    rw [hfile]; rfl

/-- Witness for C9: a missing `file_path` aborts with a trace of just the
lookup; a present `file_path` resolves to the assembled URL. -/
theorem file_resolution_witness :
    ((run sampleProps { sampleEnv with getFileResp := .ok none }).1.error =
        some noFilePathMsg ∧
     (run sampleProps { sampleEnv with getFileResp := .ok none }).2 = [.getFile]) ∧
    generateFileUrl sampleProps.token sampleEnv.getFileResp =
      .ok ((TELEGRAM_API_BASE ++ "/file/bot" ++ sampleProps.token ++ "/" ++
        "documents/file_1.pdf").trim) :=
  ⟨(file_resolution sampleProps { sampleEnv with getFileResp := .ok none }
      sampleDoc rfl rfl rfl).1 rfl,
   (file_resolution sampleProps sampleEnv sampleDoc rfl rfl rfl).2
      "documents/file_1.pdf" rfl⟩

/-- C10: `run` is total and its `success` field is `true` on the happy path
and on every caught-error path alike (the error is carried only in the
separate `error` field), so the flag alone cannot distinguish a completed
pipeline from a failed one: a successful sample run and a failed sample run
both report `success = true`. -/
theorem run_success_flag_always :
    (∀ props env, (run props env).1.success = true) ∧
    (run sampleProps sampleEnv).1.error = none ∧
    (run sampleProps { sampleEnv with getFileResp := .ok none }).1.error =
      some noFilePathMsg ∧
    (run sampleProps { sampleEnv with getFileResp := .ok none }).1.success =
      (run sampleProps sampleEnv).1.success := by
  refine ⟨?_, ?_, ?_, ?_⟩
  · intro props env
    unfold run
    (repeat' split) <;> rfl
  · decide
  · decide
  · decide

end TelegramToTRMNL
